import Mathlib

/-!
A shallow embedding of the baseline JPEG decoder in `src/jpeg/decoder.rs`
(the `image` crate's old JPEG path), together with proofs checking the
natural-language specification against it.

Conventions of the embedding:
* the byte stream is a `List Nat` of values `< 256`; reading past the end is
  the `IoError` outcome (Rust: `read_u8` returning an I/O error at EOF);
* machine integers are `Nat`/`Int` with explicit wrapping where the Rust
  arithmetic can overflow.  Release-mode semantics are modelled: `i32`/`u8`/
  `u16` additions and shifts wrap, and shift amounts are masked to the bit
  width, exactly as compiled Rust does without overflow checks;
* Rust panics (index out of bounds, `unwrap` on `None`, division by zero)
  are the distinguished `Panic` outcome, kept apart from the decoder's own
  returned errors (`FormatError`, `UnsupportedError`, `DimensionError`);
* the entropy layer (`entropy.rs`, outside this tree) is abstracted as a
  pre-decoded token stream: each `decode_symbol` or `receive` call consumes
  the next token.  `decode_block`'s own control flow, which is what the
  claims are about, is translated verbatim from `decoder.rs`.
-/

namespace Jpeg

/-- The error outcomes of the decoder.  `Panic` models a Rust panic
(out-of-bounds index, `unwrap` on `None`, division by zero), which is not a
returned error. `IoError` models an underlying read failure (e.g. EOF). -/
inductive ImageError where
  | FormatError (msg : String)
  | UnsupportedError (msg : String)
  | DimensionError
  | IoError
  | Panic (msg : String)
deriving Repr, DecidableEq

/-- `read_u8`: one byte from the stream, EOF is an I/O error. -/
def read_u8 : List Nat → Except ImageError (Nat × List Nat)
  | [] => Except.error ImageError.IoError
  | b :: rest => Except.ok (b, rest)

/-- `read_u16::<BigEndian>`: two bytes, big endian. -/
def read_u16be (s : List Nat) : Except ImageError (Nat × List Nat) := do
  let (hi, s) ← read_u8 s
  let (lo, s) ← read_u8 s
  Except.ok (hi * 256 + lo, s)

/-- `r.by_ref().take(n).read_to_end(&mut buf)`: reads up to `n` bytes,
without error on a short stream. -/
def readUpTo (n : Nat) (s : List Nat) : List Nat × List Nat :=
  (s.take n, s.drop n)

/-- Two's-complement wrap of an integer into the `i32` range. -/
def wrap32 (x : Int) : Int := (x + 2 ^ 31) % 2 ^ 32 - 2 ^ 31

/-- `extend` (decoder.rs, Section F.2.2.1 / Figure F.12), release-mode Rust
semantics.  `vt = 1 << (t as usize).wrapping_sub(1)`: the shift amount is
`(t - 1) mod 2^64` masked to `0..31`, and the `i32` shift result wraps.  The
`v + ((-1) << t) + 1` branch likewise wraps in `i32`. -/
def extend (v : Int) (t : Nat) : Int :=
  let vt : Int := wrap32 (2 ^ (((t + (2 ^ 64 - 1)) % 2 ^ 64) % 32))
  if v < vt then wrap32 (v + wrap32 (-(2 ^ (t % 32))) + 1) else v

/-- The permutation of dct coefficients (`UNZIGZAG` in decoder.rs). -/
def UNZIGZAG : List Nat := [
  0,  1,  8, 16,  9,  2,  3, 10,
  17, 24, 32, 25, 18, 11,  4,  5,
  12, 19, 26, 33, 40, 48, 41, 34,
  27, 20, 13,  6,  7, 14, 21, 28,
  35, 42, 49, 56, 57, 50, 43, 36,
  29, 22, 15, 23, 30, 37, 44, 51,
  58, 59, 52, 45, 38, 31, 39, 46,
  53, 60, 61, 54, 47, 55, 62, 63]

/-- The AC-coefficient loop of `decode_block` (`while k < 63 { ... }`),
translated verbatim.  The entropy source is a token list: the loop body's
`decode_symbol` call consumes one token (`rs`), and its `receive(ssss)` call
consumes one more (the raw magnitude bits).  Rust's `UNZIGZAG[k + 1]` and
`qtable[k + 1]` index expressions panic when `k + 1 ≥ 64`; the model returns
`Panic` there. -/
def ac_loop (qtable : List Nat) :
    Nat → List Int → List Nat → Except ImageError (List Int × List Nat)
  | k, tmp, tokens =>
    if k < 63 then
      match tokens with
      | [] => Except.error ImageError.IoError
      | rs :: rest =>
        let ssss := rs % 16
        let rrrr := rs / 16
        if ssss = 0 then
          if rrrr ≠ 15 then Except.ok (tmp, rest)
          else ac_loop qtable (k + 16) tmp rest
        else
          let k' := k + rrrr
          match rest with
          | [] => Except.error ImageError.IoError
          | t :: rest2 =>
            if k' + 1 < 64 then
              let tmp' := tmp.set (UNZIGZAG.getD (k' + 1) 0)
                (wrap32 (extend (Int.ofNat t) ssss * Int.ofNat (qtable.getD (k' + 1) 0)))
              ac_loop qtable (k' + 1) tmp' rest2
            else Except.error (ImageError.Panic "index out of bounds")
    else Except.ok (tmp, tokens)
termination_by structural _ _ tokens => tokens

/-- The DC part plus AC loop of `decode_block`, over the token stream: the
DC `decode_symbol` consumes one token `t`; if `t > 0`, `receive(t)` consumes
one more.  Returns the 64 dequantized coefficients, the new DC predictor
(the function's return value in Rust), and the remaining tokens.  The final
IDCT (`transform::idct`, outside this tree) operates on the returned
coefficients and is not needed by the claims. -/
def decode_block (tokens : List Nat) (pred : Int) (qtable : List Nat) :
    Except ImageError (List Int × Int × List Nat) := do
  let (t, tokens) ← read_u8 tokens
  let (diff, tokens) ←
    if t > 0 then read_u8 tokens else Except.ok (0, tokens)
  let diff := extend (Int.ofNat diff) t
  let dc := wrap32 (diff + pred)
  let tmp : List Int := (List.replicate 64 0).set 0 (wrap32 (dc * Int.ofNat (qtable.getD 0 0)))
  let (tmp, tokens) ← ac_loop qtable 0 tmp tokens
  Except.ok (tmp, dc, tokens)

-- Marker constants (decoder.rs).
def SOF0 : Nat := 0xC0
def SOF2 : Nat := 0xC2
def DHT : Nat := 0xC4
def RST0 : Nat := 0xD0
def RST7 : Nat := 0xD7
def SOI : Nat := 0xD8
def EOI : Nat := 0xD9
def SOS : Nat := 0xDA
def DQT : Nat := 0xDB
def DNL : Nat := 0xDC
def DRI : Nat := 0xDD
def APP0 : Nat := 0xE0
def APPF : Nat := 0xEF
def COM : Nat := 0xFE
def TEM : Nat := 0x01

/-- A representation of a JPEG component (decoder.rs `Component`). -/
structure Component where
  id : Nat
  h : Nat
  v : Nat
  tq : Nat
  dc_table : Nat
  ac_table : Nat
  dc_pred : Int
deriving Repr, DecidableEq

/-- Modelled from the spec: `HuffTable` (entropy.rs, not under src/) is the
canonical Huffman decode table "built from 16 per-length symbol counts and a
flat ordered symbol list"; only its inputs matter to the claims, so the
model records them. -/
structure HuffTable where
  bits : List Nat
  huffval : List Nat
deriving Repr, DecidableEq

/-- Modelled from the spec: `derive_tables` (entropy.rs, not under src/)
builds the canonical decode table from the length counts and symbol list. -/
def derive_tables (bits : List Nat) (huffval : List Nat) : HuffTable :=
  { bits := bits, huffval := huffval }

/-- Modelled from the spec: the Bit Reader state of `HuffDecoder`
(entropy.rs, not under src/): "Maintains a bit accumulator, a count of valid
buffered bits, an end-of-data flag, and the captured pending marker
(0 if none)".  The Rust field `end` is called `end_of_data` here because
`end` is a Lean keyword. -/
structure HuffDecoder where
  bits : Nat
  num_bits : Nat
  end_of_data : Bool
  marker : Nat
deriving Repr, DecidableEq

inductive JPEGState where
  | Start
  | HaveSOI
  | HaveFirstFrame
  | HaveFirstScan
  | End
deriving Repr, DecidableEq

/-- `VecMap<Component>` insertion: keys are small naturals, iteration is in
increasing key order, inserting at an existing key replaces the value. -/
def vmInsert (k : Nat) (c : Component) : List (Nat × Component) → List (Nat × Component)
  | [] => [(k, c)]
  | (k', c') :: rest =>
    if k < k' then (k, c) :: (k', c') :: rest
    else if k = k' then (k, c) :: rest
    else (k', c') :: vmInsert k c rest

/-- `VecMap<Component>` lookup (`get`). -/
def vmGet (k : Nat) : List (Nat × Component) → Option Component
  | [] => none
  | (k', c') :: rest => if k = k' then some c' else vmGet k rest

/-- The decoder state (decoder.rs `JPEGDecoder`), minus the reader `r`
(threaded explicitly as the byte list) and the `mcu_row` buffer (sized via
an `f32` ceiling computation — floating point — and touched by no claim). -/
structure JPEGDecoder where
  qtables : List Nat
  dctables : List HuffTable
  actables : List HuffTable
  h : HuffDecoder
  height : Nat
  width : Nat
  num_components : Nat
  scan_components : List Nat
  components : List (Nat × Component)
  mcu : List Nat
  hmax : Nat
  vmax : Nat
  interval : Nat
  mcucount : Nat
  expected_rst : Nat
  row_count : Nat
  decoded_rows : Nat
  padded_width : Nat
  state : JPEGState
deriving Repr, DecidableEq

/-- `HuffTable::default()`. -/
def initHuffTable : HuffTable := { bits := [], huffval := [] }

/-- `JPEGDecoder::new`. -/
def JPEGDecoder.new : JPEGDecoder where
  qtables := List.replicate 256 0
  dctables := [initHuffTable, initHuffTable]
  actables := [initHuffTable, initHuffTable]
  h := { bits := 0, num_bits := 0, end_of_data := false, marker := 0 }
  height := 0
  width := 0
  num_components := 0
  scan_components := []
  components := []
  mcu := []
  hmax := 0
  vmax := 0
  interval := 0
  mcucount := 0
  expected_rst := RST0
  row_count := 0
  decoded_rows := 0
  padded_width := 0
  state := JPEGState.Start

/-- The table lookups at the head of `decode_block`:
`&self.dctables[dc as usize]`, `&self.actables[ac as usize]` and the slice
`&self.qtables[64 * q as usize .. 64 * q as usize + 64]`; each panics when
out of bounds. -/
def decode_block_tables (st : JPEGDecoder) (dc ac q : Nat) :
    Except ImageError (HuffTable × HuffTable × List Nat) := do
  let dctable ← match st.dctables[dc]? with
    | some t => Except.ok t
    | none => Except.error (ImageError.Panic "index out of bounds")
  let actable ← match st.actables[ac]? with
    | some t => Except.ok t
    | none => Except.error (ImageError.Panic "index out of bounds")
  let qtable ←
    if 64 * q + 64 ≤ st.qtables.length then
      Except.ok ((st.qtables.drop (64 * q)).take 64)
    else Except.error (ImageError.Panic "slice index out of range")
  Except.ok (dctable, actable, qtable)

/-- The `while table_length > 0` loop of `read_quantization_tables`.
`table_length` is an `i32` (read as u16, minus 2; decreases by 65 per
record).  The 64 coefficients are read byte-by-byte with `read_u8`, so a
short stream is an I/O error; the id check `pq != 0 || tq > 3` keeps the
slice `qtables[64*tq .. 64*tq+64]` in bounds.  `fuel` makes the recursion
structural; each iteration consumes at least one byte, so any
`fuel > stream length` is exact and the out-of-fuel branch is unreachable
in every use below. -/
def dqt_loop : Nat → Int → List Nat → List Nat → Except ImageError (List Nat × List Nat)
  | 0, _, _, _ => Except.error (ImageError.Panic "model: out of fuel")
  | fuel + 1, tl, qtables, s =>
    if tl > 0 then do
      let (pqtq, s) ← read_u8 s
      let pq := pqtq / 16
      let tq := pqtq % 16
      if pq ≠ 0 ∨ tq > 3 then
        Except.error (ImageError.FormatError "Quantization table malformed.")
      else if s.length < 64 then Except.error ImageError.IoError
      else
        let qtables' := (qtables.take (64 * tq)) ++ s.take 64 ++ qtables.drop (64 * tq + 64)
        dqt_loop fuel (tl - 65) qtables' (s.drop 64)
    else Except.ok (qtables, s)

/-- `read_quantization_tables`. -/
def read_quantization_tables (st : JPEGDecoder) (s : List Nat) :
    Except ImageError (JPEGDecoder × List Nat) := do
  let (table_length, s) ← read_u16be s
  let (qtables, s) ← dqt_loop (s.length + 1) ((table_length : Int) - 2) st.qtables s
  Except.ok ({ st with qtables := qtables }, s)

/-- The `while table_length > 0` loop of `read_huffman_tables`.
`table_length` is a `u16`, updated with wrapping subtraction; the per-length
counts are summed with wrapping `u8` addition; the 16 counts and the symbols
are read with `take(..).read_to_end`, which does not fail on a short
stream.  Writing `dctables[th]`/`actables[th]` with `th > 1` is an
out-of-bounds panic in Rust, modelled as `Panic`.  `fuel` as in
`dqt_loop`. -/
def dht_loop : Nat → Nat → List HuffTable → List HuffTable → List Nat →
    Except ImageError (List HuffTable × List HuffTable × List Nat)
  | 0, _, _, _, _ => Except.error (ImageError.Panic "model: out of fuel")
  | fuel + 1, tl, dctables, actables, s =>
    if tl > 0 then do
      let (tcth, s) ← read_u8 s
      let tc := tcth / 16
      let th := tcth % 16
      if tc ≠ 0 ∧ tc ≠ 1 then
        Except.error (ImageError.UnsupportedError s!"Huffman table class {tc} is not supported")
      else
        let (bits, s) := readUpTo 16 s
        let len := bits.length
        let mt := bits.foldl (fun a b => (a + b) % 256) 0
        let (huffval, s) := readUpTo mt s
        let tl' := (tl + 65536 - (1 + len + mt)) % 65536
        if tc = 0 then
          if th < dctables.length then
            dht_loop fuel tl' (dctables.set th (derive_tables bits huffval)) actables s
          else Except.error (ImageError.Panic "index out of bounds")
        else
          if th < actables.length then
            dht_loop fuel tl' dctables (actables.set th (derive_tables bits huffval)) s
          else Except.error (ImageError.Panic "index out of bounds")
    else Except.ok (dctables, actables, s)

/-- `read_huffman_tables`. -/
def read_huffman_tables (st : JPEGDecoder) (s : List Nat) :
    Except ImageError (JPEGDecoder × List Nat) := do
  let (table_length, s) ← read_u16be s
  let (dctables, actables, s) ←
    dht_loop (s.length + 1) ((table_length + 65536 - 2) % 65536) st.dctables st.actables s
  Except.ok ({ st with dctables := dctables, actables := actables }, s)

/-- The per-component loop of `read_frame_components`: reads `id`, `hv`,
`tq` for each of the `n` components, accumulating `blocks_per_mcu`
(`u8` arithmetic, wrapping). -/
def frame_components_loop : Nat → List (Nat × Component) → Nat → List Nat →
    Except ImageError (List (Nat × Component) × Nat × List Nat)
  | 0, comps, bpm, s => Except.ok (comps, bpm, s)
  | n + 1, comps, bpm, s => do
    let (id, s) ← read_u8 s
    let (hv, s) ← read_u8 s
    let (tq, s) ← read_u8 s
    let c : Component :=
      { id := id, h := hv / 16, v := hv % 16, tq := tq,
        dc_table := 0, ac_table := 0, dc_pred := 0 }
    frame_components_loop n (vmInsert id c comps) ((bpm + (hv / 16) * (hv % 16)) % 256) s

/-- `read_frame_components`: reads the component descriptors, folds the
maximum sampling factors over the map, and — when there is exactly one
component — forces `h = v = 1` on every component, `blocks_per_mcu = 1` and
`hmax = vmax = 1`.  `self.mcu` is sized to `blocks_per_mcu * 64`. -/
def read_frame_components (st : JPEGDecoder) (n : Nat) (s : List Nat) :
    Except ImageError (JPEGDecoder × List Nat) := do
  let (comps, bpm, s) ← frame_components_loop n st.components 0 s
  let hv := comps.foldl (fun p kc => (max p.1 kc.2.h, max p.2 kc.2.v)) (0, 0)
  let st := { st with components := comps, hmax := hv.1, vmax := hv.2 }
  let (st, bpm) :=
    if n = 1 then
      ({ st with
           components := st.components.map (fun kc => (kc.1, { kc.2 with h := 1, v := 1 })),
           hmax := 1, vmax := 1 }, 1)
    else (st, bpm)
  let st := { st with mcu := List.replicate (bpm * 64) 0 }
  Except.ok (st, s)

/-- `read_frame_header`: length (unused), sample precision (must be 8),
height, width, component count; height/width/count are stored before the
zero-dimension and component-count checks run (on an error the Rust decoder
keeps the partial state but the error propagates, so it is never decoded
with). -/
def read_frame_header (st : JPEGDecoder) (s : List Nat) :
    Except ImageError (JPEGDecoder × List Nat) := do
  let (_frame_length, s) ← read_u16be s
  let (sample_precision, s) ← read_u8 s
  if sample_precision ≠ 8 then
    Except.error (ImageError.UnsupportedError
      s!"A sample precision of {sample_precision} is not supported")
  else do
    let (height, s) ← read_u16be s
    let (width, s) ← read_u16be s
    let (num_components, s) ← read_u8 s
    let st := { st with height := height, width := width, num_components := num_components }
    if st.height = 0 ∨ st.width = 0 then Except.error ImageError.DimensionError
    else if st.num_components ≠ 1 ∧ st.num_components ≠ 3 then
      Except.error (ImageError.UnsupportedError
        s!"Frames with {num_components} components are not supported")
    else
      let st := { st with padded_width := 8 * ((st.width + 7) / 8) }
      read_frame_components st st.num_components s

/-- The per-component loop of `read_scan_header`: for each scan component,
reads `id` and the table-selector byte, looks the component up with
`self.components.get_mut(&id).unwrap()` — a panic when the id was never
declared — and overwrites its `dc_table`/`ac_table` selectors, pushing the
id onto `scan_components`. -/
def scan_components_loop : Nat → JPEGDecoder → List Nat →
    Except ImageError (JPEGDecoder × List Nat)
  | 0, st, s => Except.ok (st, s)
  | n + 1, st, s => do
    let (id, s) ← read_u8 s
    let (tables, s) ← read_u8 s
    match vmGet id st.components with
    | none => Except.error (ImageError.Panic "called Option::unwrap on a None value")
    | some c =>
      let c := { c with dc_table := tables / 16, ac_table := tables % 16 }
      scan_components_loop n
        { st with components := vmInsert id c st.components,
                  scan_components := st.scan_components ++ [id] } s

/-- `read_scan_header`. -/
def read_scan_header (st : JPEGDecoder) (s : List Nat) :
    Except ImageError (JPEGDecoder × List Nat) := do
  let (_scan_length, s) ← read_u16be s
  let (num_scan_components, s) ← read_u8 s
  let st := { st with scan_components := [] }
  let (st, s) ← scan_components_loop num_scan_components st s
  let (_spectral_end, s) ← read_u8 s
  let (_spectral_start, s) ← read_u8 s
  let (approx, s) ← read_u8 s
  let _approx_high := approx / 16
  let _approx_low := approx % 16
  Except.ok (st, s)

/-- `read_restart_interval`. -/
def read_restart_interval (st : JPEGDecoder) (s : List Nat) :
    Except ImageError (JPEGDecoder × List Nat) := do
  let (_length, s) ← read_u16be s
  let (interval, s) ← read_u16be s
  Except.ok ({ st with interval := interval }, s)

/-- `read_metadata`: the marker-driven segment-parser loop
(`while self.state != JPEGState::HaveFirstScan`).  A byte that is not
`0xFF` is skipped; then the marker byte is dispatched exactly as the Rust
`match`.  `fuel` makes the recursion structural; every iteration consumes
at least one byte, so any `fuel > stream length` is exact. -/
def read_metadata : Nat → JPEGDecoder → List Nat → Except ImageError (JPEGDecoder × List Nat)
  | 0, _, _ => Except.error (ImageError.Panic "model: out of fuel")
  | fuel + 1, st, s =>
    if st.state = JPEGState.HaveFirstScan then Except.ok (st, s)
    else do
      let (byte, s) ← read_u8 s
      if byte ≠ 0xFF then read_metadata fuel st s
      else do
        let (marker, s) ← read_u8 s
        if marker = SOI then read_metadata fuel { st with state := JPEGState.HaveSOI } s
        else if marker = DHT then do
          let (st, s) ← read_huffman_tables st s
          read_metadata fuel st s
        else if marker = DQT then do
          let (st, s) ← read_quantization_tables st s
          read_metadata fuel st s
        else if marker = SOF0 then do
          let (st, s) ← read_frame_header st s
          read_metadata fuel { st with state := JPEGState.HaveFirstFrame } s
        else if marker = SOS then do
          let (st, s) ← read_scan_header st s
          read_metadata fuel { st with state := JPEGState.HaveFirstScan } s
        else if marker = DRI then do
          let (st, s) ← read_restart_interval st s
          read_metadata fuel st s
        else if (APP0 ≤ marker ∧ marker ≤ APPF) ∨ marker = COM then do
          let (length, s) ← read_u16be s
          let (_buf, s) := readUpTo ((length + 65536 - 2) % 65536) s
          read_metadata fuel st s
        else if marker = TEM then read_metadata fuel st s
        else if marker = SOF2 then
          Except.error (ImageError.UnsupportedError "Marker SOF2 ist not supported.")
        else if marker = DNL then
          Except.error (ImageError.UnsupportedError "Marker DNL ist not supported.")
        else Except.error (ImageError.FormatError s!"Unkown marker {marker} encountered.")

/-- The scanning loop of `find_restart_marker`: read bytes until `0xFF`
followed by a byte in `RST0..RST7` (success) or by `EOI` (format error
"Restart marker not found.").  Any other byte after `0xFF` — including any
other marker — falls to the `_ => continue` arm and scanning goes on. -/
def scan_restart : List Nat → Except ImageError (Nat × List Nat)
  | [] => Except.error ImageError.IoError
  | b :: rest =>
    if b = 0xFF then
      match rest with
      | [] => Except.error ImageError.IoError
      | b2 :: rest2 =>
        if RST0 ≤ b2 ∧ b2 ≤ RST7 then Except.ok (b2, rest2)
        else if b2 = EOI then
          Except.error (ImageError.FormatError "Restart marker not found.")
        else scan_restart rest2
    else scan_restart rest
termination_by structural s => s

/-- `find_restart_marker`: the Bit Reader's captured pending marker, if any
(cleared on use), otherwise the stream scan. -/
def find_restart_marker (st : JPEGDecoder) (s : List Nat) :
    Except ImageError (Nat × JPEGDecoder × List Nat) :=
  if st.h.marker ≠ 0 then
    Except.ok (st.h.marker, { st with h := { st.h with marker := 0 } }, s)
  else
    match scan_restart s with
    | Except.error e => Except.error e
    | Except.ok (b, s) => Except.ok (b, st, s)

/-- `reset`: zero the Bit Reader's accumulator, bit count, end flag and
pending marker, and every component's DC predictor. -/
def reset (st : JPEGDecoder) : JPEGDecoder :=
  { st with
      h := { st.h with bits := 0, num_bits := 0, end_of_data := false, marker := 0 },
      components := st.components.map (fun kc => (kc.1, { kc.2 with dc_pred := 0 })) }

/-- `read_restart`: `w = (width + 7) / (hmax * 8)` and
`h = (height + 7) / (vmax * 8)` in `u16` arithmetic (the `+ 7` wraps, the
division panics when `hmax`/`vmax` is zero); when a nonzero interval
divides the MCU count and fewer than `w * h` MCUs have been decoded, the
next restart marker is located and checked against the expected id, with
cyclic advance `RST7 → RST0` on a match; otherwise nothing happens. -/
def read_restart (st : JPEGDecoder) (s : List Nat) :
    Except ImageError (JPEGDecoder × List Nat) :=
  if (st.hmax * 8) % 256 = 0 ∨ (st.vmax * 8) % 256 = 0 then
    Except.error (ImageError.Panic "attempt to divide by zero")
  else
    let w := ((st.width + 7) % 65536) / ((st.hmax * 8) % 256)
    let h := ((st.height + 7) % 65536) / ((st.vmax * 8) % 256)
    if st.interval ≠ 0 ∧ st.mcucount % st.interval = 0 ∧ st.mcucount < (w * h) % 65536 then
      match find_restart_marker st s with
      | Except.error e => Except.error e
      | Except.ok (rst, st, s) =>
        if rst = st.expected_rst then
          let st := reset st
          let st := { st with expected_rst := st.expected_rst + 1 }
          let st := if st.expected_rst > RST7 then { st with expected_rst := RST0 } else st
          Except.ok (st, s)
        else
          Except.error (ImageError.FormatError s!"Unexpected restart maker {rst} found")
    else Except.ok (st, s)

/-- The restart condition as the claim words it, with exact ceilings:
nonzero interval, the MCU count a positive multiple of it, and the count
strictly below `ceil(width / (8 * hmax)) * ceil(height / (8 * vmax))`. -/
def restartClaimCond (st : JPEGDecoder) : Prop :=
  st.interval ≠ 0 ∧ 0 < st.mcucount ∧ st.mcucount % st.interval = 0 ∧
    st.mcucount < ((st.width + 8 * st.hmax - 1) / (8 * st.hmax)) *
                  ((st.height + 8 * st.vmax - 1) / (8 * st.vmax))

instance (st : JPEGDecoder) : Decidable (restartClaimCond st) := by
  unfold restartClaimCond
  infer_instance

/-- The fields of a `Component` other than the two Huffman-table selectors:
identifier, sampling factors, quantization selector, DC predictor. -/
def componentFixedPart (c : Component) : Nat × Nat × Nat × Nat × Int :=
  (c.id, c.h, c.v, c.tq, c.dc_pred)

/-- Byte encoding of a scan header's component list: each entry is the
component id followed by the packed table-selector byte. -/
def encodePairs : List (Nat × Nat) → List Nat
  | [] => []
  | (id, t) :: ps => id :: t :: encodePairs ps

/-- Whether a decoder outcome is a returned `UnsupportedError`. -/
def isUnsupported {α : Type} : Except ImageError α → Bool
  | Except.error (ImageError.UnsupportedError _) => true
  | _ => false

/-- A decoder state after a hypothetical 24×8 frame with `hmax = 2`,
`vmax = 1`, restart interval 1, one MCU decoded. -/
def restartSkipExample : JPEGDecoder :=
  { JPEGDecoder.new with
      width := 24, height := 8, hmax := 2, vmax := 1, interval := 1, mcucount := 1 }

/-- A decoder state after a hypothetical 16×8 grayscale frame with restart
interval 1, one MCU decoded, one component whose DC predictor is 7. -/
def restartMatchExample : JPEGDecoder :=
  { JPEGDecoder.new with
      width := 16, height := 8, hmax := 1, vmax := 1, interval := 1, mcucount := 1,
      components := [(1, { id := 1, h := 1, v := 1, tq := 0,
                           dc_table := 0, ac_table := 0, dc_pred := 7 })] }

/-- A decoder state holding two frame-declared components, used to exercise
the scan-header parser. -/
def scanExampleState : JPEGDecoder :=
  { JPEGDecoder.new with
      components := [(1, { id := 1, h := 2, v := 2, tq := 1,
                           dc_table := 0, ac_table := 0, dc_pred := 5 }),
                     (2, { id := 2, h := 1, v := 1, tq := 0,
                           dc_table := 0, ac_table := 0, dc_pred := 3 })] }

theorem wrap32_eq_self {x : Int} (h1 : -(2 ^ 31) ≤ x) (h2 : x < 2 ^ 31) :
    wrap32 x = x := by
  unfold wrap32
  have h3 : (0 : Int) ≤ x + 2 ^ 31 := by linarith
  have h4 : x + 2 ^ 31 < 2 ^ 32 := by norm_num at h2 ⊢; omega
  rw [Int.emod_eq_of_lt h3 h4]
  ring

theorem extend_shift_eq {t : Nat} (h1 : 1 ≤ t) (h2 : t ≤ 15) :
    ((t + (2 ^ 64 - 1)) % 2 ^ 64) % 32 = t - 1 := by
  interval_cases t <;> rfl

theorem vmGet_vmInsert (k k' : Nat) (c : Component) (l : List (Nat × Component)) :
    vmGet k' (vmInsert k c l) = if k' = k then some c else vmGet k' l := by
  induction l with
  | nil => simp [vmInsert, vmGet]
  | cons hd tl ih =>
    obtain ⟨k2, c2⟩ := hd
    by_cases h1 : k < k2
    · simp only [vmInsert, if_pos h1]
      simp [vmGet]
    · by_cases h2 : k = k2
      · subst h2
        simp only [vmInsert, if_neg h1, if_pos rfl]
        by_cases h3 : k' = k <;> simp [vmGet, h3]
      · simp only [vmInsert, if_neg h1, if_neg h2]
        by_cases h3 : k' = k2
        · subst h3
          have h4 : ¬ k' = k := fun hh => h2 hh.symm
          simp [vmGet, h4]
        · simp [vmGet, h3, ih]

theorem mem_vmInsert {x : Nat × Component} {k : Nat} {c : Component}
    {l : List (Nat × Component)} (h : x ∈ vmInsert k c l) : x = (k, c) ∨ x ∈ l := by
  induction l with
  | nil => simpa [vmInsert] using h
  | cons hd tl ih =>
    obtain ⟨k2, c2⟩ := hd
    unfold vmInsert at h
    by_cases h1 : k < k2
    · rw [if_pos h1, List.mem_cons, List.mem_cons] at h
      rcases h with h | h | h
      · exact Or.inl h
      · exact Or.inr (h ▸ List.mem_cons_self _ _)
      · exact Or.inr (List.mem_cons_of_mem _ h)
    · rw [if_neg h1] at h
      by_cases h2 : k = k2
      · rw [if_pos h2, List.mem_cons] at h
        rcases h with h | h
        · exact Or.inl h
        · exact Or.inr (List.mem_cons_of_mem _ h)
      · rw [if_neg h2, List.mem_cons] at h
        rcases h with h | h
        · exact Or.inr (h ▸ List.mem_cons_self _ _)
        · rcases ih h with h | h
          · exact Or.inl h
          · exact Or.inr (List.mem_cons_of_mem _ h)

theorem find_restart_marker_state {st : JPEGDecoder} {s : List Nat} {rst : Nat}
    {st1 : JPEGDecoder} {s1 : List Nat}
    (h : find_restart_marker st s = Except.ok (rst, st1, s1)) :
    st1 = { st with h := { st.h with marker := 0 } } := by
  unfold find_restart_marker at h
  by_cases hm : st.h.marker ≠ 0
  · rw [if_pos hm] at h
    cases h
    rfl
  · rw [if_neg hm] at h
    push_neg at hm
    cases hscan : scan_restart s with
    | error e => rw [hscan] at h; cases h
    | ok p =>
      obtain ⟨b, s2⟩ := p
      rw [hscan] at h
      cases h
      have hh : { st.h with marker := 0 } = st.h := by
        rcases hfields : st.h with ⟨b', n', e', m'⟩
        rw [hfields] at hm
        simp only at hm
        simp [hm]
      rw [hh]

theorem scan_components_loop_zero (st : JPEGDecoder) (s : List Nat) :
    scan_components_loop 0 st s = Except.ok (st, s) := rfl

theorem scan_components_loop_nil (n : Nat) (st : JPEGDecoder) :
    scan_components_loop (n + 1) st [] = Except.error ImageError.IoError := rfl

theorem scan_components_loop_one (n : Nat) (st : JPEGDecoder) (id : Nat) :
    scan_components_loop (n + 1) st [id] = Except.error ImageError.IoError := rfl

theorem scan_components_loop_cons (n : Nat) (st : JPEGDecoder) (id t : Nat) (s2 : List Nat) :
    scan_components_loop (n + 1) st (id :: t :: s2) =
      match vmGet id st.components with
      | none => Except.error (ImageError.Panic "called Option::unwrap on a None value")
      | some c => scan_components_loop n
          { st with
              components :=
                vmInsert id ({ c with dc_table := t / 16, ac_table := t % 16 }) st.components,
              scan_components := st.scan_components ++ [id] } s2 := rfl

theorem frame_components_loop_zero (comps : List (Nat × Component)) (bpm : Nat) (s : List Nat) :
    frame_components_loop 0 comps bpm s = Except.ok (comps, bpm, s) := rfl

theorem frame_components_loop_nil (n : Nat) (comps : List (Nat × Component)) (bpm : Nat) :
    frame_components_loop (n + 1) comps bpm [] = Except.error ImageError.IoError := rfl

theorem frame_components_loop_one (n : Nat) (comps : List (Nat × Component)) (bpm a : Nat) :
    frame_components_loop (n + 1) comps bpm [a] = Except.error ImageError.IoError := rfl

theorem frame_components_loop_two (n : Nat) (comps : List (Nat × Component)) (bpm a b : Nat) :
    frame_components_loop (n + 1) comps bpm [a, b] = Except.error ImageError.IoError := rfl

theorem frame_components_loop_cons (n : Nat) (comps : List (Nat × Component))
    (bpm : Nat) (a b c : Nat) (s2 : List Nat) :
    frame_components_loop (n + 1) comps bpm (a :: b :: c :: s2) =
      frame_components_loop n
        (vmInsert a { id := a, h := b / 16, v := b % 16, tq := c,
                      dc_table := 0, ac_table := 0, dc_pred := 0 } comps)
        ((bpm + (b / 16) * (b % 16)) % 256) s2 := rfl

theorem scan_components_loop_proj (n : Nat) : ∀ (st : JPEGDecoder) (s : List Nat)
    (st1 : JPEGDecoder) (s1 : List Nat),
    scan_components_loop n st s = Except.ok (st1, s1) →
    (∀ k, (vmGet k st1.components).map componentFixedPart =
          (vmGet k st.components).map componentFixedPart) ∧
    st1.qtables = st.qtables ∧ st1.dctables = st.dctables ∧ st1.actables = st.actables ∧
    st1.h = st.h ∧ st1.height = st.height ∧ st1.width = st.width ∧
    st1.interval = st.interval ∧ st1.mcucount = st.mcucount ∧
    st1.expected_rst = st.expected_rst ∧ st1.state = st.state := by
  induction n with
  | zero =>
    intro st s st1 s1 h
    rw [scan_components_loop_zero] at h
    cases h
    exact ⟨fun k => rfl, rfl, rfl, rfl, rfl, rfl, rfl, rfl, rfl, rfl, rfl⟩
  | succ n ih =>
    intro st s st1 s1 h
    match s with
    | [] => rw [scan_components_loop_nil] at h; cases h
    | [cid] => rw [scan_components_loop_one] at h; cases h
    | cid :: t :: s2 =>
      rw [scan_components_loop_cons] at h
      cases hget : vmGet cid st.components with
      | none => rw [hget] at h; cases h
      | some c =>
        rw [hget] at h
        obtain ⟨hproj, hrest⟩ := ih _ _ _ _ h
        constructor
        · intro q
          rw [hproj q]
          show Option.map componentFixedPart
              (vmGet q (vmInsert cid
                ({ c with dc_table := t / 16, ac_table := t % 16 }) st.components)) =
            Option.map componentFixedPart (vmGet q st.components)
          rw [vmGet_vmInsert]
          by_cases hk : q = cid
          · subst hk
            rw [if_pos rfl, hget]
            rfl
          · rw [if_neg hk]
        · exact hrest

theorem scan_components_loop_encode (pairs : List (Nat × Nat)) :
    ∀ (st : JPEGDecoder) (tail : List Nat),
    (∀ p ∈ pairs, (vmGet p.1 st.components).isSome = true) →
    ∃ st1, scan_components_loop pairs.length st (encodePairs pairs ++ tail) =
        Except.ok (st1, tail) ∧
      st1.scan_components = st.scan_components ++ pairs.map Prod.fst := by
  induction pairs with
  | nil =>
    intro st tail _
    exact ⟨st, rfl, by simp⟩
  | cons p ps ih =>
    intro st tail hdecl
    obtain ⟨id, t⟩ := p
    have hsome : (vmGet id st.components).isSome = true := hdecl (id, t) (by simp)
    rw [Option.isSome_iff_exists] at hsome
    obtain ⟨c, hc⟩ := hsome
    obtain ⟨st1, hloop, hsc⟩ := ih
      { st with
          components :=
            vmInsert id ({ c with dc_table := t / 16, ac_table := t % 16 }) st.components,
          scan_components := st.scan_components ++ [id] }
      tail
      (by
        intro q hq
        simp only [vmGet_vmInsert]
        by_cases hk : q.1 = id
        · rw [if_pos hk]; rfl
        · rw [if_neg hk]
          exact hdecl q (by simp [hq]))
    refine ⟨st1, ?_, ?_⟩
    · show scan_components_loop (ps.length + 1) st
        (id :: t :: (encodePairs ps ++ tail)) = Except.ok (st1, tail)
      rw [scan_components_loop_cons, hc]
      exact hloop
    · rw [hsc]
      simp

theorem frame_components_loop_dc_pred (n : Nat) :
    ∀ (comps : List (Nat × Component)) (bpm : Nat) (s : List Nat)
      (comps' : List (Nat × Component)) (bpm' : Nat) (s' : List Nat),
    frame_components_loop n comps bpm s = Except.ok (comps', bpm', s') →
    (∀ kc ∈ comps, kc.2.dc_pred = 0) → ∀ kc ∈ comps', kc.2.dc_pred = 0 := by
  induction n with
  | zero =>
    intro comps bpm s comps' bpm' s' h hz
    rw [frame_components_loop_zero] at h
    cases h
    exact hz
  | succ n ih =>
    intro comps bpm s comps' bpm' s' h hz
    match s with
    | [] => rw [frame_components_loop_nil] at h; cases h
    | [a] => rw [frame_components_loop_one] at h; cases h
    | [a, b] => rw [frame_components_loop_two] at h; cases h
    | a :: b :: c :: s2 =>
      rw [frame_components_loop_cons] at h
      refine ih _ _ _ _ _ _ h ?_
      intro kc hkc
      rcases mem_vmInsert hkc with hkc | hkc
      · rw [hkc]
      · exact hz kc hkc

theorem except_bind_ok {α β : Type} (a : α) (f : α → Except ImageError β) :
    (Except.ok a >>= f : Except ImageError β) = f a := rfl

theorem scan_restart_cons_ff (b2 : Nat) (rest2 : List Nat) :
    scan_restart (0xFF :: b2 :: rest2) =
      (if RST0 ≤ b2 ∧ b2 ≤ RST7 then Except.ok (b2, rest2)
       else if b2 = EOI then
         Except.error (ImageError.FormatError "Restart marker not found.")
       else scan_restart rest2) := rfl

theorem except_bind_error {α β : Type} (e : ImageError) (f : α → Except ImageError β) :
    (Except.error e >>= f : Except ImageError β) = Except.error e := rfl

/-- C1 (amended): for a magnitude category `1 ≤ t ≤ 15` and raw value
`0 ≤ v < 2^t`, `extend v t = v` when `v ≥ 2^(t-1)` and
`extend v t = v - (2^t - 1)` otherwise; but for `t = 0` the function is the
identity on nonnegative values (`extend v 0 = v`), which is `0` only at the
single in-range input `v = 0`.  The four numeric examples hold. -/
theorem C1_extend_amended :
    (∀ (t : Nat) (v : Int), 1 ≤ t → t ≤ 15 → 0 ≤ v → v < 2 ^ t →
      ((2 ^ (t - 1) ≤ v → extend v t = v) ∧
       (v < 2 ^ (t - 1) → extend v t = v - (2 ^ t - 1)))) ∧
    (∀ v : Int, 0 ≤ v → extend v 0 = v) ∧
    extend 0 1 = -1 ∧ extend 1 1 = 1 ∧ extend 0 2 = -3 ∧ extend 3 2 = 3 := by
  refine ⟨?_, ?_, by decide, by decide, by decide, by decide⟩
  · intro t v h1 h2 hv0 hvt
    have hs := extend_shift_eq h1 h2
    have hp0 : (0 : Int) ≤ 2 ^ (t - 1) := by positivity
    have hp1 : (2 : Int) ^ (t - 1) ≤ 2 ^ 14 := pow_le_pow_right₀ (by norm_num) (by omega)
    have hp2 : (2 : Int) ^ t ≤ 2 ^ 15 := pow_le_pow_right₀ (by norm_num) (by omega)
    have hp3 : (0 : Int) ≤ 2 ^ t := by positivity
    have hvt_eq : wrap32 (2 ^ (((t + (2 ^ 64 - 1)) % 2 ^ 64) % 32)) = (2 : Int) ^ (t - 1) := by
      rw [hs]
      exact wrap32_eq_self (by linarith) (by norm_num at hp1 ⊢; omega)
    have htmod : t % 32 = t := Nat.mod_eq_of_lt (by omega)
    have hneg : wrap32 (-(2 ^ (t % 32))) = -((2 : Int) ^ t) := by
      rw [htmod]
      exact wrap32_eq_self (by norm_num at hp2 ⊢; omega) (by linarith [hp3])
    unfold extend
    rw [hvt_eq, hneg]
    have hhalf : (2 : Int) ^ (t - 1) ≤ 2 ^ t := pow_le_pow_right₀ (by norm_num) (by omega)
    constructor
    · intro hge
      rw [if_neg (not_lt.mpr hge)]
    · intro hlt
      rw [if_pos hlt]
      have : wrap32 (v + -(2 ^ t) + 1) = v + -(2 ^ t) + 1 := by
        apply wrap32_eq_self
        · norm_num at hp2 ⊢; omega
        · have : (0 : Int) < 2 ^ 31 := by norm_num
          linarith
      rw [this]; ring
  · intro v hv
    unfold extend
    have h1 : wrap32 (2 ^ (((0 + (2 ^ 64 - 1)) % 2 ^ 64) % 32)) = -(2 ^ 31) := by decide
    rw [h1, if_neg (not_lt.mpr (le_trans (by norm_num) hv))]

/-- C1 witness: the amended theorem applied at `t = 2`, `v = 1`
(`extend 1 2 = 1 - 3 = -2`). -/
theorem C1_extend_amended_witness : extend 1 2 = 1 - (2 ^ 2 - 1) :=
  (C1_extend_amended.1 2 1 (by decide) (by decide) (by decide) (by decide)).2 (by decide)

/-- C1 counterexample: the claim states `extend(v, 0) = 0` for every `v`,
but the code (release-mode shift masking makes `vt = i32::MIN` for `t = 0`)
returns `v` itself: `extend 1 0 = 1 ≠ 0`. -/
theorem C1_extend_counterexample : extend 1 0 = 1 ∧ ¬ extend 1 0 = 0 := by decide

/-- C2: the AC loop of `decode_block` can index past the end of `UNZIGZAG`
and the 64-entry quantization slice.  With DC category 0 followed by four AC
symbols `0xF1` (run 15, size 1), `k` reaches `48` with the loop guard
`k < 63` still true, then `k += 15` makes `k + 1 = 64` and
`UNZIGZAG[k + 1]`/`qtable[k + 1]` are out of bounds — a panic, contradicting
the claim that no coefficient is ever placed outside the 64-entry block. -/
theorem C2_ac_out_of_bounds :
    decode_block [0, 241, 0, 241, 0, 241, 0, 241, 0] 0 (List.replicate 64 1) =
      Except.error (ImageError.Panic "index out of bounds") := by rfl

/-- C3 counterexample: the claim demands a `FormatError` for *every* stream
whose first two bytes are not `0xFF 0xD8`, but `read_metadata` skips
non-`0xFF` bytes while hunting for markers: the stream
`00 FF D8 FF DA …` starts with `00 FF` yet parses to completion. -/
theorem C3_metadata_counterexample :
    ([0, 255, 216, 255, 218, 0, 8, 0, 0, 0, 0] : List Nat).take 2 ≠ [255, 216] ∧
    (read_metadata 12 JPEGDecoder.new [0, 255, 216, 255, 218, 0, 8, 0, 0, 0, 0]).isOk = true := by
  exact ⟨by decide, by rfl⟩

set_option maxRecDepth 4000 in
/-- C3 (amended): metadata parsing skips any byte that is not `0xFF` while
searching for a marker and never requires the stream to begin with SOI, so
a stream whose first two bytes are not `0xFF 0xD8` can still parse
successfully; what holds is that a leading `0xFF` followed by a marker byte
outside the recognized set is rejected with a returned `FormatError`
(never a crash). -/
theorem C3_metadata_amended (fuel : Nat) (st : JPEGDecoder) (m : Nat) (rest : List Nat)
    (hst : st.state = JPEGState.Start)
    (h1 : m ≠ SOI) (h2 : m ≠ DHT) (h3 : m ≠ DQT) (h4 : m ≠ SOF0) (h5 : m ≠ SOS)
    (h6 : m ≠ DRI) (h7 : ¬(APP0 ≤ m ∧ m ≤ APPF)) (h8 : m ≠ COM) (h9 : m ≠ TEM)
    (h10 : m ≠ SOF2) (h11 : m ≠ DNL) :
    read_metadata (fuel + 1) st (0xFF :: m :: rest) =
      Except.error (ImageError.FormatError s!"Unkown marker {m} encountered.") := by
  have hs : ¬ st.state = JPEGState.HaveFirstScan := by
    rw [hst]
    intro hh
    cases hh
  rw [read_metadata, if_neg hs]
  dsimp only [read_u8, except_bind_ok]
  rw [if_neg (by decide : ¬ ((255 : Nat) ≠ 255)), if_neg h1, if_neg h2, if_neg h3,
      if_neg h4, if_neg h5, if_neg h6, if_neg (not_or.mpr ⟨h7, h8⟩), if_neg h9,
      if_neg h10, if_neg h11]

/-- C3 witness: the amended theorem at the concrete stream `FF 00`. -/
theorem C3_metadata_amended_witness :
    read_metadata 1 JPEGDecoder.new [255, 0] =
      Except.error (ImageError.FormatError s!"Unkown marker {(0 : Nat)} encountered.") :=
  C3_metadata_amended 0 JPEGDecoder.new 0 [] rfl (by decide) (by decide) (by decide)
    (by decide) (by decide) (by decide) (by decide) (by decide) (by decide) (by decide)
    (by decide)

/-- C4 counterexample: the claim says any non-RST marker found first —
here DHT (`0xC4`) — yields the "restart marker not found" error, but the
code's `_ => continue` arm skips it and happily returns the later RST0. -/
theorem C4_find_restart_counterexample :
    find_restart_marker JPEGDecoder.new [0xFF, 0xC4, 0xFF, 0xD0] =
      Except.ok (0xD0, JPEGDecoder.new, []) := by rfl

/-- C4 (amended): with no pending marker the scan looks for `0xFF` followed
by a byte in `RST0..RST7`; only `EOI` after an `0xFF` produces the format
error "Restart marker not found." — any other byte pair (including every
other marker) is skipped and scanning continues.  A captured pending marker
is used directly and cleared. -/
theorem C4_find_restart_amended :
    (∀ (st : JPEGDecoder) (s : List Nat), st.h.marker ≠ 0 →
      find_restart_marker st s =
        Except.ok (st.h.marker, { st with h := { st.h with marker := 0 } }, s)) ∧
    (∀ (b2 : Nat) (rest : List Nat), RST0 ≤ b2 → b2 ≤ RST7 →
      scan_restart (0xFF :: b2 :: rest) = Except.ok (b2, rest)) ∧
    (∀ rest : List Nat, scan_restart (0xFF :: EOI :: rest) =
      Except.error (ImageError.FormatError "Restart marker not found.")) ∧
    (∀ (b : Nat) (rest : List Nat), b ≠ 0xFF →
      scan_restart (b :: rest) = scan_restart rest) ∧
    (∀ (b2 : Nat) (rest : List Nat), ¬(RST0 ≤ b2 ∧ b2 ≤ RST7) → b2 ≠ EOI →
      scan_restart (0xFF :: b2 :: rest) = scan_restart rest) ∧
    (∀ (st : JPEGDecoder) (s s1 : List Nat) (b : Nat), st.h.marker = 0 →
      scan_restart s = Except.ok (b, s1) →
      find_restart_marker st s = Except.ok (b, st, s1)) ∧
    (∀ (st : JPEGDecoder) (s : List Nat) (e : ImageError), st.h.marker = 0 →
      scan_restart s = Except.error e →
      find_restart_marker st s = Except.error e) := by
  refine ⟨?_, ?_, ?_, ?_, ?_, ?_, ?_⟩
  · intro st s hm
    unfold find_restart_marker
    rw [if_pos hm]
  · intro b2 rest hge hle
    rw [scan_restart_cons_ff, if_pos ⟨hge, hle⟩]
  · intro rest
    rw [scan_restart_cons_ff, if_neg (by decide), if_pos rfl]
  · intro b rest hb
    conv_lhs => unfold scan_restart
    rw [if_neg hb]
  · intro b2 rest hrs he
    rw [scan_restart_cons_ff, if_neg hrs, if_neg he]
  · intro st s s1 b hm hscan
    unfold find_restart_marker
    rw [if_neg (fun hne => hne hm), hscan]
  · intro st s e hm hscan
    unfold find_restart_marker
    rw [if_neg (fun hne => hne hm), hscan]

/-- C4 witness: the amended theorem at concrete streams. -/
theorem C4_find_restart_amended_witness :
    scan_restart [255, 208] = Except.ok (208, []) ∧
    scan_restart [255, 217] =
      Except.error (ImageError.FormatError "Restart marker not found.") ∧
    scan_restart [7, 255, 217] = scan_restart [255, 217] ∧
    scan_restart [255, 196, 255, 217] = scan_restart [255, 217] :=
  ⟨C4_find_restart_amended.2.1 208 [] (by decide) (by decide),
   C4_find_restart_amended.2.2.1 [],
   C4_find_restart_amended.2.2.2.1 7 [255, 217] (by decide),
   C4_find_restart_amended.2.2.2.2.1 196 [255, 217] (by decide) (by decide)⟩

/-- C5 counterexample: with width 24, height 8, `hmax = 2`, `vmax = 1`,
interval 1 and one decoded MCU, the claim's total
`ceil(24/16) * ceil(8/8) = 2` makes its condition true, yet the code's
`(24+7)/16 * (8+7)/8 = 1` stops the comparison `1 < 1`, so `read_restart`
touches nothing — not even the empty stream, which would otherwise yield an
I/O error. -/
theorem C5_read_restart_counterexample :
    restartClaimCond restartSkipExample ∧
    read_restart restartSkipExample [] = Except.ok (restartSkipExample, []) := by
  exact ⟨by decide, by rfl⟩

/-- C5 (amended): after each MCU, restart-marker processing happens if and
only if the interval is nonzero, the MCU count is a multiple of it (the
count is ≥ 1 at every call site, `decode_mcu` having just incremented it),
and the count is strictly below
`((width + 7) mod 2^16) / (8·hmax) * ((height + 7) mod 2^16) / (8·vmax)`
taken `mod 2^16` — `u16` wrapping adds and *floor* divisions, which agree
with the claim's ceilings only when `hmax = vmax = 1`; otherwise the state
and the stream are untouched. -/
theorem C5_read_restart_amended (st : JPEGDecoder) (s : List Nat)
    (hh : (st.hmax * 8) % 256 ≠ 0) (hv : (st.vmax * 8) % 256 ≠ 0) :
    (¬(st.interval ≠ 0 ∧ st.mcucount % st.interval = 0 ∧
        st.mcucount < ((((st.width + 7) % 65536) / ((st.hmax * 8) % 256)) *
                       (((st.height + 7) % 65536) / ((st.vmax * 8) % 256))) % 65536) →
      read_restart st s = Except.ok (st, s)) ∧
    ((st.interval ≠ 0 ∧ st.mcucount % st.interval = 0 ∧
        st.mcucount < ((((st.width + 7) % 65536) / ((st.hmax * 8) % 256)) *
                       (((st.height + 7) % 65536) / ((st.vmax * 8) % 256))) % 65536) →
      st.h.marker = 0 →
      read_restart st [] = Except.error ImageError.IoError) := by
  constructor
  · intro hcond
    unfold read_restart
    rw [if_neg (not_or.mpr ⟨hh, hv⟩)]
    simp only
    rw [if_neg hcond]
  · intro hcond hm
    unfold read_restart
    rw [if_neg (not_or.mpr ⟨hh, hv⟩)]
    simp only
    rw [if_pos hcond]
    unfold find_restart_marker
    rw [if_neg (fun hne => hne hm)]
    rfl

/-- C5 witness: the amended theorem at the two example states — the
condition-false state (nothing happens) and a condition-true state with an
empty stream (the marker hunt hits EOF). -/
theorem C5_read_restart_amended_witness :
    read_restart restartSkipExample [] = Except.ok (restartSkipExample, []) ∧
    read_restart restartMatchExample [] = Except.error ImageError.IoError :=
  ⟨(C5_read_restart_amended restartSkipExample [] (by decide) (by decide)).1 (by decide),
   (C5_read_restart_amended restartMatchExample [] (by decide) (by decide)).2 (by decide) rfl⟩

/-- C6: when restart processing runs and the located marker equals the
expected id, `read_restart` zeroes the bit reader's accumulator, bit count,
end flag and pending marker, zeroes every component's DC predictor, and
advances the expected id cyclically (`RST7` wraps to `RST0`), touching no
other decoder field; a located marker different from the expected one is a
format error.  The predictor is 0 at scan start — every component parsed by
the frame header carries predictor 0 and the scan header never changes a
predictor — and block decoding only ever replaces a predictor by the newly
decoded DC value `extend(diff) + pred`, never resetting it. -/
theorem C6_restart_reset :
    (∀ (st : JPEGDecoder) (s s1 : List Nat) (rst : Nat) (st1 : JPEGDecoder),
      find_restart_marker st s = Except.ok (rst, st1, s1) →
      (st.hmax * 8) % 256 ≠ 0 → (st.vmax * 8) % 256 ≠ 0 →
      st.interval ≠ 0 → st.mcucount % st.interval = 0 →
      st.mcucount < ((((st.width + 7) % 65536) / ((st.hmax * 8) % 256)) *
                     (((st.height + 7) % 65536) / ((st.vmax * 8) % 256))) % 65536 →
      st.expected_rst ≤ RST7 →
      ((rst = st.expected_rst →
        ∃ st', read_restart st s = Except.ok (st', s1) ∧
          st'.h.bits = 0 ∧ st'.h.num_bits = 0 ∧ st'.h.end_of_data = false ∧
          st'.h.marker = 0 ∧
          (∀ kc ∈ st'.components, kc.2.dc_pred = 0) ∧
          st'.expected_rst =
            (if st.expected_rst = RST7 then RST0 else st.expected_rst + 1) ∧
          st'.width = st.width ∧ st'.height = st.height ∧
          st'.interval = st.interval ∧ st'.mcucount = st.mcucount ∧
          st'.qtables = st.qtables ∧ st'.dctables = st.dctables ∧
          st'.actables = st.actables ∧ st'.state = st.state) ∧
       (rst ≠ st.expected_rst →
        read_restart st s = Except.error
          (ImageError.FormatError s!"Unexpected restart maker {rst} found")))) ∧
    (∀ (st : JPEGDecoder) (n : Nat) (s : List Nat) (st' : JPEGDecoder) (s' : List Nat),
      read_frame_components st n s = Except.ok (st', s') →
      (∀ kc ∈ st.components, kc.2.dc_pred = 0) →
      ∀ kc ∈ st'.components, kc.2.dc_pred = 0) ∧
    (∀ (st : JPEGDecoder) (s : List Nat) (st' : JPEGDecoder) (s' : List Nat),
      read_scan_header st s = Except.ok (st', s') →
      ∀ k, (vmGet k st'.components).map Component.dc_pred =
           (vmGet k st.components).map Component.dc_pred) ∧
    (∀ (tokens : List Nat) (pred : Int) (qtable : List Nat)
       (tmp : List Int) (p : Int) (rest : List Nat),
      decode_block tokens pred qtable = Except.ok (tmp, p, rest) →
      ∃ d t, p = wrap32 (extend (Int.ofNat d) t + pred)) := by
  refine ⟨?_, ?_, ?_, ?_⟩
  · intro st s s1 rst st1 hfind hh hv hi hmod hlt hexp
    have hst1 := find_restart_marker_state hfind
    subst hst1
    constructor
    · intro hrst
      by_cases hR : st.expected_rst = RST7
      · refine ⟨{ reset { st with h := { st.h with marker := 0 } } with
            expected_rst := RST0 }, ?_, rfl, rfl, rfl, rfl, ?_, ?_, rfl, rfl, rfl,
            rfl, rfl, rfl, rfl, rfl⟩
        · unfold read_restart
          rw [if_neg (not_or.mpr ⟨hh, hv⟩)]
          dsimp only
          rw [if_pos ⟨hi, hmod, hlt⟩, hfind]
          dsimp only
          rw [if_pos hrst]
          dsimp only [reset]
          rw [if_pos (by show st.expected_rst + 1 > RST7; rw [hR]; decide)]
        · intro kc hkc
          simp only [reset, List.mem_map] at hkc
          obtain ⟨kc0, _, hkc⟩ := hkc
          rw [← hkc]
        · rw [if_pos hR]
      · refine ⟨{ reset { st with h := { st.h with marker := 0 } } with
            expected_rst := st.expected_rst + 1 }, ?_, rfl, rfl, rfl, rfl, ?_, ?_,
            rfl, rfl, rfl, rfl, rfl, rfl, rfl, rfl⟩
        · unfold read_restart
          rw [if_neg (not_or.mpr ⟨hh, hv⟩)]
          dsimp only
          rw [if_pos ⟨hi, hmod, hlt⟩, hfind]
          dsimp only
          rw [if_pos hrst]
          dsimp only [reset]
          rw [if_neg (by show ¬ st.expected_rst + 1 > RST7; unfold RST7 at hexp hR ⊢; omega)]
        · intro kc hkc
          simp only [reset, List.mem_map] at hkc
          obtain ⟨kc0, _, hkc⟩ := hkc
          rw [← hkc]
        · rw [if_neg hR]
    · intro hrst
      unfold read_restart
      rw [if_neg (not_or.mpr ⟨hh, hv⟩)]
      dsimp only
      rw [if_pos ⟨hi, hmod, hlt⟩, hfind]
      dsimp only
      rw [if_neg hrst]
  · intro st n s st' s' h hz
    unfold read_frame_components at h
    cases hloop : frame_components_loop n st.components 0 s with
    | error e =>
      rw [hloop] at h
      exact Except.noConfusion h
    | ok trip =>
      obtain ⟨comps, bpm, s2⟩ := trip
      rw [hloop] at h
      have hmem := frame_components_loop_dc_pred n st.components 0 s comps bpm s2 hloop hz
      dsimp only [except_bind_ok] at h
      by_cases hn : n = 1
      · rw [if_pos hn] at h
        cases h
        intro kc hkc
        simp only [List.mem_map] at hkc
        obtain ⟨kc0, hkc0, hkc⟩ := hkc
        rw [← hkc]
        exact hmem kc0 hkc0
      · rw [if_neg hn] at h
        cases h
        exact hmem
  · intro st s st' s' h k
    unfold read_scan_header at h
    match s with
    | [] => exact Except.noConfusion h
    | [a] => exact Except.noConfusion h
    | a :: b :: s2 =>
      dsimp only [read_u16be, read_u8, except_bind_ok] at h
      match s2 with
      | [] => exact Except.noConfusion h
      | n0 :: s3 =>
        dsimp only [except_bind_ok] at h
        cases hloop : scan_components_loop n0 { st with scan_components := [] } s3 with
        | error e =>
          rw [hloop] at h
          exact Except.noConfusion h
        | ok pr =>
          obtain ⟨st2, s4⟩ := pr
          rw [hloop] at h
          obtain ⟨hproj, -⟩ := scan_components_loop_proj n0 _ _ _ _ hloop
          have hfix := hproj k
          dsimp only [except_bind_ok] at h
          match s4 with
          | [] => exact Except.noConfusion h
          | [x] => exact Except.noConfusion h
          | [x, y] => exact Except.noConfusion h
          | x :: y :: z :: s5 =>
            dsimp only [read_u8, except_bind_ok] at h
            cases h
            have : ∀ (o1 o2 : Option Component),
                o1.map componentFixedPart = o2.map componentFixedPart →
                o1.map Component.dc_pred = o2.map Component.dc_pred := by
              intro o1 o2 hfp
              cases o1 <;> cases o2 <;> simp_all [componentFixedPart]
            exact this _ _ hfix
  · intro tokens pred qtable tmp p rest h
    unfold decode_block at h
    match tokens with
    | [] => exact Except.noConfusion h
    | t :: ts =>
      dsimp only [read_u8, except_bind_ok] at h
      by_cases ht : t > 0
      · rw [if_pos ht] at h
        match ts with
        | [] => exact Except.noConfusion h
        | d :: ds =>
          dsimp only [read_u8, except_bind_ok] at h
          cases hac : ac_loop qtable 0
              ((List.replicate 64 0).set 0
                (wrap32 (wrap32 (extend (Int.ofNat d) t + pred) *
                  Int.ofNat (qtable.getD 0 0)))) ds with
          | error e =>
            rw [hac] at h
            exact Except.noConfusion h
          | ok pr =>
            rw [hac] at h
            dsimp only [except_bind_ok] at h
            injection h with h1
            exact ⟨d, t, (congrArg (fun q => q.2.1) h1).symm⟩
      · rw [if_neg ht] at h
        cases hac : ac_loop qtable 0
            ((List.replicate 64 0).set 0
              (wrap32 (wrap32 (extend (Int.ofNat 0) t + pred) *
                Int.ofNat (qtable.getD 0 0)))) ts with
        | error e =>
          rw [hac] at h
          exact Except.noConfusion h
        | ok pr =>
          rw [hac] at h
          dsimp only [except_bind_ok] at h
          injection h with h1
          exact ⟨0, t, (congrArg (fun q => q.2.1) h1).symm⟩

/-- C6 witness: one accepted RST0 at a state due for a restart. -/
theorem C6_restart_reset_witness :
    ∃ st', read_restart restartMatchExample [255, 208, 9] = Except.ok (st', [9]) ∧
      st'.h.bits = 0 ∧ st'.h.num_bits = 0 ∧ st'.h.end_of_data = false ∧
      st'.h.marker = 0 ∧
      (∀ kc ∈ st'.components, kc.2.dc_pred = 0) ∧
      st'.expected_rst =
        (if restartMatchExample.expected_rst = RST7 then RST0
         else restartMatchExample.expected_rst + 1) ∧
      st'.width = restartMatchExample.width ∧
      st'.height = restartMatchExample.height ∧
      st'.interval = restartMatchExample.interval ∧
      st'.mcucount = restartMatchExample.mcucount ∧
      st'.qtables = restartMatchExample.qtables ∧
      st'.dctables = restartMatchExample.dctables ∧
      st'.actables = restartMatchExample.actables ∧
      st'.state = restartMatchExample.state :=
  ((C6_restart_reset.1 restartMatchExample [255, 208, 9] [9] 208 restartMatchExample
      rfl (by decide) (by decide) (by decide) (by decide) (by decide) (by decide)).1) rfl

/-- C7: a frame header declaring exactly one component forces the
component's sampling factors to `h = v = 1` regardless of the declared
`hv` byte, sets `hmax = vmax = 1`, and sizes the MCU buffer to a single
64-sample block. -/
theorem C7_single_component (st : JPEGDecoder) (cid hv tq : Nat) (rest : List Nat)
    (hc : st.components = []) :
    ∃ st', read_frame_components st 1 (cid :: hv :: tq :: rest) = Except.ok (st', rest) ∧
      st'.components = [(cid, ⟨cid, 1, 1, tq, 0, 0, 0⟩)] ∧
      st'.hmax = 1 ∧ st'.vmax = 1 ∧ st'.mcu.length = 64 := by
  obtain ⟨qt, dct, act, hf, hei, wid, nc, sc, comps, mcu0, hm, vm, itv, mc, er, rc, dr,
    pw, stt⟩ := st
  simp only at hc
  subst hc
  exact ⟨_, rfl, rfl, rfl, rfl, rfl⟩

/-- C7 witness: the theorem at a fresh decoder and the component bytes
`id 7, hv 0x35 (h = 3, v = 5), tq 2`. -/
theorem C7_single_component_witness :
    ∃ st', read_frame_components JPEGDecoder.new 1 [7, 53, 2] = Except.ok (st', []) ∧
      st'.components = [(7, ⟨7, 1, 1, 2, 0, 0, 0⟩)] ∧
      st'.hmax = 1 ∧ st'.vmax = 1 ∧ st'.mcu.length = 64 :=
  C7_single_component JPEGDecoder.new 7 53 2 [] rfl

/-- C8 counterexample: a frame with sample precision 8, height 1, width 0
and component count 2 violates two of the claim's universals at once: the
code returns `DimensionError` (the width test runs before the component
count test), not the `UnsupportedError` the claim requires for a
2-component frame. -/
theorem C8_frame_header_counterexample :
    read_frame_header JPEGDecoder.new [0, 11, 8, 0, 1, 0, 0, 2] =
      Except.error ImageError.DimensionError ∧
    isUnsupported (read_frame_header JPEGDecoder.new [0, 11, 8, 0, 1, 0, 0, 2]) = false := by
  exact ⟨rfl, rfl⟩

/-- C8 (amended): the checks run in order — non-8 precision is an
`UnsupportedError`; with precision 8, a zero width or height is a
`DimensionError`; with precision 8 and nonzero dimensions, a component
count other than 1 or 3 is an `UnsupportedError`.  Each failing parse
returns the error (so the header is never decoded with), but an earlier
check masks a later one. -/
theorem C8_frame_header_amended :
    (∀ (st : JPEGDecoder) (l1 l0 prec : Nat) (r : List Nat), prec ≠ 8 →
      read_frame_header st (l1 :: l0 :: prec :: r) =
        Except.error (ImageError.UnsupportedError
          s!"A sample precision of {prec} is not supported")) ∧
    (∀ (st : JPEGDecoder) (l1 l0 h1 h0 w1 w0 nc : Nat) (r : List Nat),
      h1 * 256 + h0 = 0 ∨ w1 * 256 + w0 = 0 →
      read_frame_header st (l1 :: l0 :: 8 :: h1 :: h0 :: w1 :: w0 :: nc :: r) =
        Except.error ImageError.DimensionError) ∧
    (∀ (st : JPEGDecoder) (l1 l0 h1 h0 w1 w0 nc : Nat) (r : List Nat),
      ¬(h1 * 256 + h0 = 0 ∨ w1 * 256 + w0 = 0) → nc ≠ 1 → nc ≠ 3 →
      read_frame_header st (l1 :: l0 :: 8 :: h1 :: h0 :: w1 :: w0 :: nc :: r) =
        Except.error (ImageError.UnsupportedError
          s!"Frames with {nc} components are not supported")) := by
  refine ⟨?_, ?_, ?_⟩
  · intro st l1 l0 prec r hprec
    unfold read_frame_header
    dsimp only [read_u16be, read_u8, except_bind_ok]
    rw [if_pos hprec]
  · intro st l1 l0 h1 h0 w1 w0 nc r hdim
    unfold read_frame_header
    dsimp only [read_u16be, read_u8, except_bind_ok]
    rw [if_neg (by decide : ¬ ((8 : Nat) ≠ 8))]
    rw [if_pos hdim]
  · intro st l1 l0 h1 h0 w1 w0 nc r hdim hnc1 hnc3
    unfold read_frame_header
    dsimp only [read_u16be, read_u8, except_bind_ok]
    rw [if_neg (by decide : ¬ ((8 : Nat) ≠ 8))]
    rw [if_neg hdim, if_pos ⟨hnc1, hnc3⟩]

/-- C8 witness: the amended theorem on three concrete headers — precision
9, a zero-width frame, and a 2-component frame with nonzero dimensions. -/
theorem C8_frame_header_amended_witness :
    read_frame_header JPEGDecoder.new [0, 11, 9] =
      Except.error (ImageError.UnsupportedError
        s!"A sample precision of {(9 : Nat)} is not supported") ∧
    read_frame_header JPEGDecoder.new [0, 11, 8, 0, 1, 0, 0, 2] =
      Except.error ImageError.DimensionError ∧
    read_frame_header JPEGDecoder.new [0, 11, 8, 0, 1, 0, 1, 2] =
      Except.error (ImageError.UnsupportedError
        s!"Frames with {(2 : Nat)} components are not supported") :=
  ⟨C8_frame_header_amended.1 JPEGDecoder.new 0 11 9 [] (by decide),
   C8_frame_header_amended.2.1 JPEGDecoder.new 0 11 0 1 0 0 2 [] (Or.inr rfl),
   C8_frame_header_amended.2.2 JPEGDecoder.new 0 11 0 1 0 1 2 [] (by decide)
     (by decide) (by decide)⟩

set_option maxRecDepth 4000 in
/-- C9: with the decoder's table shapes (a 256-entry `qtables`, two DC and
two AC tables) the table indexing at the head of `decode_block` is in
bounds whenever `tq ≤ 3`, `dc ≤ 1` and `ac ≤ 1`, and out of bounds (a
panic) as soon as any selector exceeds its range; and neither the frame
header nor the scan header validates these selectors — the frame header
stores `tq = 255` verbatim and the scan header stores table selectors
`15`/`15` verbatim. -/
theorem C9_table_indexing (st : JPEGDecoder) (dc ac q : Nat)
    (hq : st.qtables.length = 256) (hd : st.dctables.length = 2)
    (ha : st.actables.length = 2) (h1 : q ≤ 3) (h2 : dc ≤ 1) (h3 : ac ≤ 1) :
    (decode_block_tables st dc ac q).isOk = true ∧
    decode_block_tables JPEGDecoder.new 2 0 0 =
      Except.error (ImageError.Panic "index out of bounds") ∧
    decode_block_tables JPEGDecoder.new 0 2 0 =
      Except.error (ImageError.Panic "index out of bounds") ∧
    decode_block_tables JPEGDecoder.new 0 0 4 =
      Except.error (ImageError.Panic "slice index out of range") ∧
    (∃ st', read_frame_components JPEGDecoder.new 1 [1, 17, 255] = Except.ok (st', []) ∧
      vmGet 1 st'.components = some ⟨1, 1, 1, 255, 0, 0, 0⟩) ∧
    (∃ st', read_scan_header scanExampleState [0, 8, 1, 1, 255, 63, 0, 0] =
        Except.ok (st', []) ∧
      vmGet 1 st'.components = some ⟨1, 2, 2, 1, 15, 15, 5⟩) := by
  refine ⟨?_, rfl, rfl, rfl, ⟨_, rfl, rfl⟩, ⟨_, rfl, rfl⟩⟩
  have hdc : dc < st.dctables.length := by omega
  have hac2 : ac < st.actables.length := by omega
  unfold decode_block_tables
  rw [List.getElem?_eq_getElem hdc]
  dsimp only [except_bind_ok]
  rw [List.getElem?_eq_getElem hac2]
  dsimp only [except_bind_ok]
  rw [if_pos (show 64 * q + 64 ≤ st.qtables.length by omega)]
  rfl

set_option maxRecDepth 4000 in
/-- C9 witness: the theorem at a fresh decoder with `dc = 1`, `ac = 0`,
`tq = 3`. -/
theorem C9_table_indexing_witness :
    (decode_block_tables JPEGDecoder.new 1 0 3).isOk = true :=
  (C9_table_indexing JPEGDecoder.new 1 0 3 rfl rfl rfl (by decide) (by decide)
    (by decide)).1

/-- C10: a scan header whose component ids were all declared in the frame
header parses successfully; every component keeps its id, sampling factors,
quantization selector and DC predictor (only the two Huffman-table
selectors of the listed components change), the scan component list is
rebuilt, and no other decoder field moves.  A scan naming an undeclared
component id does not surface as a returned error: it is the `unwrap`
panic. -/
theorem C10_scan_header (st : JPEGDecoder) (l1 l0 se ss ap : Nat)
    (pairs : List (Nat × Nat)) (rest : List Nat)
    (hdecl : ∀ p ∈ pairs, (vmGet p.1 st.components).isSome = true) :
    (∃ st', read_scan_header st
        (l1 :: l0 :: pairs.length :: (encodePairs pairs ++ se :: ss :: ap :: rest)) =
        Except.ok (st', rest) ∧
      (∀ k, (vmGet k st'.components).map componentFixedPart =
            (vmGet k st.components).map componentFixedPart) ∧
      st'.scan_components = pairs.map Prod.fst ∧
      st'.qtables = st.qtables ∧ st'.dctables = st.dctables ∧
      st'.actables = st.actables ∧ st'.h = st.h ∧ st'.width = st.width ∧
      st'.height = st.height ∧ st'.interval = st.interval ∧
      st'.expected_rst = st.expected_rst ∧ st'.state = st.state) ∧
    (∀ (cid t : Nat) (s2 : List Nat), vmGet cid st.components = none →
      read_scan_header st (l1 :: l0 :: 1 :: cid :: t :: s2) =
        Except.error (ImageError.Panic "called Option::unwrap on a None value")) := by
  constructor
  · obtain ⟨st1, hloop, hsc⟩ := scan_components_loop_encode pairs
      { st with scan_components := [] } (se :: ss :: ap :: rest) hdecl
    obtain ⟨hproj, hqt, hdct, hact, hhf, hhei, hwid, hitv, -, her, hstt⟩ :=
      scan_components_loop_proj pairs.length _ _ _ _ hloop
    refine ⟨st1, ?_, hproj, by simpa using hsc, hqt, hdct, hact, hhf, hwid, hhei,
      hitv, her, hstt⟩
    unfold read_scan_header
    dsimp only [read_u16be, read_u8, except_bind_ok]
    rw [hloop]
    rfl
  · intro cid t s2 hnone
    unfold read_scan_header
    dsimp only [read_u16be, read_u8, except_bind_ok]
    rw [scan_components_loop_cons]
    dsimp only
    rw [hnone]
    rfl

/-- C10 witness: the theorem on the two-component example state, with the
scan listing component 1 with table byte `0x12`, and on the undeclared
id 9. -/
theorem C10_scan_header_witness :
    (∃ st', read_scan_header scanExampleState
        (0 :: 8 :: 1 :: (encodePairs [(1, 18)] ++ 63 :: 0 :: 0 :: [])) =
        Except.ok (st', []) ∧
      (∀ k, (vmGet k st'.components).map componentFixedPart =
            (vmGet k scanExampleState.components).map componentFixedPart) ∧
      st'.scan_components = [(1, 18)].map Prod.fst ∧
      st'.qtables = scanExampleState.qtables ∧
      st'.dctables = scanExampleState.dctables ∧
      st'.actables = scanExampleState.actables ∧
      st'.h = scanExampleState.h ∧ st'.width = scanExampleState.width ∧
      st'.height = scanExampleState.height ∧
      st'.interval = scanExampleState.interval ∧
      st'.expected_rst = scanExampleState.expected_rst ∧
      st'.state = scanExampleState.state) ∧
    read_scan_header scanExampleState [0, 8, 1, 9, 18, 63, 0, 0] =
      Except.error (ImageError.Panic "called Option::unwrap on a None value") := by
  have h := C10_scan_header scanExampleState 0 8 63 0 0 [(1, 18)] []
    (by decide)
  exact ⟨h.1, h.2 9 18 [63, 0, 0] (by decide)⟩

end Jpeg
